import Mathlib

/-!
Verification development for the nostd-onewire-rs repository: a shallow
embedding, in Lean 4, of the 1-Wire CRC-8 engine, the ROM search engine,
the DS2484 bridge register protocol (blocking and suspending revisions)
and the port-timing configuration builder, together with theorems that
settle the specification claims against the embedded code.

Machine integers are embedded as Nat with explicit wrap-arounds where the
source can overflow; fallible operations return Except values; stateful
code is embedded by explicit state passing.
-/

set_option maxRecDepth 100000

namespace OneWireRs

/-!
### CRC-8 engine, from embedded-onewire/src/utils.rs

The source keeps a running accumulator byte in the struct OneWireCrc.
A byte value is a Nat below 256.
-/

namespace OneWireCrc

/-- One iteration of the loop in update_calc (utils.rs lines 68-73):
if the low bit is set, shift right and xor with the polynomial 0x8C,
otherwise just shift right. -/
def calcRound (crc : Nat) : Nat :=
  if crc &&& 0x01 == 0x01 then (crc >>> 1) ^^^ 0x8C else crc >>> 1

/-- The for loop of update_calc: n iterations of calcRound. -/
def calcRounds : Nat → Nat → Nat
  | 0, crc => crc
  | n + 1, crc => calcRounds n (calcRound crc)

/-- OneWireCrc::update_calc (utils.rs lines 66-76): xor the incoming byte
into the accumulator, then run eight shift and xor rounds. -/
def update_calc (self byte : Nat) : Nat :=
  calcRounds 8 (self ^^^ byte)

/-- The 256-entry lookup table ONEWIRE_SRC_TABLE of update_table
(utils.rs lines 46-61), verbatim. -/
def ONEWIRE_SRC_TABLE : List Nat := [
  0, 94, 188, 226, 97, 63, 221, 131, 194, 156, 126, 32, 163, 253, 31, 65, 157, 195, 33,
  127, 252, 162, 64, 30, 95, 1, 227, 189, 62, 96, 130, 220, 35, 125, 159, 193, 66, 28,
  254, 160, 225, 191, 93, 3, 128, 222, 60, 98, 190, 224, 2, 92, 223, 129, 99, 61, 124,
  34, 192, 158, 29, 67, 161, 255, 70, 24, 250, 164, 39, 121, 155, 197, 132, 218, 56, 102,
  229, 187, 89, 7, 219, 133, 103, 57, 186, 228, 6, 88, 25, 71, 165, 251, 120, 38, 196,
  154, 101, 59, 217, 135, 4, 90, 184, 230, 167, 249, 27, 69, 198, 152, 122, 36, 248, 166,
  68, 26, 153, 199, 37, 123, 58, 100, 134, 216, 91, 5, 231, 185, 140, 210, 48, 110, 237,
  179, 81, 15, 78, 16, 242, 172, 47, 113, 147, 205, 17, 79, 173, 243, 112, 46, 204, 146,
  211, 141, 111, 49, 178, 236, 14, 80, 175, 241, 19, 77, 206, 144, 114, 44, 109, 51, 209,
  143, 12, 82, 176, 238, 50, 108, 142, 208, 83, 13, 239, 177, 240, 174, 76, 18, 145, 207,
  45, 115, 202, 148, 118, 40, 171, 245, 23, 73, 8, 86, 180, 234, 105, 55, 213, 139, 87,
  9, 235, 181, 54, 104, 138, 212, 149, 203, 41, 119, 244, 170, 72, 22, 233, 183, 85, 11,
  136, 214, 52, 106, 43, 117, 151, 201, 74, 20, 246, 168, 116, 42, 200, 150, 21, 75, 169,
  247, 182, 232, 10, 84, 215, 137, 107, 53]

/-- OneWireCrc::update_table (utils.rs lines 45-63): index the table with
the xor of the accumulator and the incoming byte. -/
def update_table (self byte : Nat) : Nat :=
  ONEWIRE_SRC_TABLE.getD (self ^^^ byte) 0

/-- OneWireCrc::update (utils.rs lines 20-29). The source dispatches to
update_table when the crc-table cargo feature is enabled and to
update_calc otherwise; the two are proved equal below (claim C10), and
the embedding uses the direct calculation. -/
def update (self byte : Nat) : Nat :=
  update_calc self byte

/-- OneWireCrc::validate (utils.rs lines 36-42): run the accumulator,
seeded with zero, over all bytes and compare with zero. -/
def validate (sequence : List Nat) : Bool :=
  (sequence.foldl update 0) == 0

end OneWireCrc

/-- Flip bit j of byte i of a byte sequence (a single-bit corruption). -/
def flipBit (s : List Nat) (i j : Nat) : List Nat :=
  s.set i ((s.getD i 0) ^^^ (1 <<< j))

/-!
### ROM search engine, from embedded-onewire/src/search.rs

The search engine is generic over the OneWire trait. The trait is
embedded as a record of state-passing operations over an abstract bus
state type. Each operation returns an Except value, mirroring the
OneWireResult return types, together with the advanced bus state.
-/

/-- The bus status returned by a reset, as used by the search engine
through the OneWireStatus trait (traits.rs lines 5-20). -/
structure OwStatus where
  presence : Bool
  shortcircuit : Bool
deriving DecidableEq

/-- OneWireError (embedded-onewire/src/error.rs), with the payloads of
Other and InvalidValue elided. -/
inductive OwError where
  | other
  | noDevicePresent
  | busInUse
  | busUninitialized
  | busInvalidSpeed
  | shortCircuit
  | unimplemented
  | invalidCrc
  | invalidValue
deriving DecidableEq

/-- The OneWire trait operations used by the blocking search engine
(traits.rs; search.rs calls read_triplet with the navigation direction
and get_overdrive_mode returning a result). -/
structure OneWireBus (σ : Type) where
  getOverdriveMode : σ → Except OwError Bool × σ
  reset : σ → Except OwError OwStatus × σ
  writeByte : Nat → σ → Except OwError Unit × σ
  writeBit : Bool → σ → Except OwError Unit × σ
  readBit : σ → Except OwError Bool × σ
  readTriplet : Bool → σ → Except OwError (Bool × Bool) × σ

/-- Search bookkeeping state of OneWireSearch (search.rs lines 6-14),
without the borrowed bus handle, which the embedding passes separately. -/
structure OneWireSearch where
  cmd : Nat
  last_device : Bool
  last_discrepancy : Nat
  last_family_discrepancy : Nat
  family : Nat
  rom : List Nat
deriving DecidableEq

/-- ONEWIRE_SEARCH_CMD (consts.rs line 39). -/
def ONEWIRE_SEARCH_CMD : Nat := 0xf0

/-- ONEWIRE_CONDITIONAL_SEARCH_CMD (consts.rs line 42). -/
def ONEWIRE_CONDITIONAL_SEARCH_CMD : Nat := 0xec

/-- OneWireSearch::new (search.rs lines 31-41). -/
def OneWireSearch.new (cmd : Nat) : OneWireSearch :=
  { cmd := cmd
    last_device := false
    last_discrepancy := 0
    last_family_discrepancy := 0
    family := 0
    rom := [0, 0, 0, 0, 0, 0, 0, 0] }

/-- OneWireSearch::with_family (search.rs lines 48-59). -/
def OneWireSearch.with_family (cmd family : Nat) : OneWireSearch :=
  { cmd := cmd
    last_device := false
    last_discrepancy := 0
    last_family_discrepancy := 0
    family := family
    rom := [family, 0, 0, 0, 0, 0, 0, 0] }

/-- OneWireSearch::reset (search.rs lines 62-67). -/
def OneWireSearch.reset (st : OneWireSearch) : OneWireSearch :=
  { st with
    last_device := false
    last_discrepancy := 0
    last_family_discrepancy := 0
    rom := [st.family, 0, 0, 0, 0, 0, 0, 0] }

/-- u64::from_le_bytes on a byte list (least significant byte first). -/
def fromLeBytes (l : List Nat) : Nat :=
  l.foldr (fun b acc => b + 256 * acc) 0

/-- u64::to_le_bytes as an 8-byte list. -/
def toLeBytes (n : Nat) : List Nat :=
  (List.range 8).map (fun i => (n >>> (8 * i)) % 256)

/-- The triplet read with fallback of next (search.rs lines 124-140):
try read_triplet with the chosen direction; on Unimplemented fall back
to two read_bit calls and flag that the direction bit still has to be
written; other errors propagate. -/
def readSearchBits {σ : Type} (bus : OneWireBus σ) (ow : σ) (dir : Bool) :
    Except OwError (Bool × Bool × Bool) × σ :=
  match bus.readTriplet dir ow with
  | (Except.ok t, ow) => (Except.ok (t.1, t.2, false), ow)
  | (Except.error e, ow) =>
    match e with
    | OwError.unimplemented =>
      match bus.readBit ow with
      | (Except.error e, ow) => (Except.error e, ow)
      | (Except.ok id_bit, ow) =>
        match bus.readBit ow with
        | (Except.error e, ow) => (Except.error e, ow)
        | (Except.ok complement_bit, ow) =>
          (Except.ok (id_bit, complement_bit, true), ow)
    | _ => (Except.error e, ow)

/-- The navigation direction of the loop (search.rs lines 113-117):
below the previous discrepancy follow the accumulated ROM bit, at the
discrepancy take the one branch, above it default to zero. -/
def searchDir (st : OneWireSearch) (id_bit_num idx rom_mask : Nat) : Bool :=
  if id_bit_num < st.last_discrepancy
  then decide ((st.rom.getD idx 0) &&& rom_mask > 0)
  else id_bit_num == st.last_discrepancy

/-- The family-discrepancy recording of the loop (search.rs lines
120-122): when the chosen direction is 0 and the position is below 9,
remember it as the family discrepancy. -/
def recordFamilyDiscrepancy (st : OneWireSearch) (dir : Bool)
    (id_bit_num : Nat) : OneWireSearch :=
  if !dir && decide (id_bit_num < 9)
  then { st with last_family_discrepancy := id_bit_num }
  else st

/-- Setting or clearing the current ROM bit (search.rs lines 152-156).
The source complements the u8 mask, embedded as xor with 255. -/
def writeRomBit (st : OneWireSearch) (idx rom_mask : Nat) (set : Bool) :
    OneWireSearch :=
  { st with rom :=
    (if set then st.rom.set idx ((st.rom.getD idx 0) ||| rom_mask)
     else st.rom.set idx ((st.rom.getD idx 0) &&& (255 ^^^ rom_mask))) }

/-- The loop epilogue (search.rs lines 169-172): the new last
discrepancy is the recorded zero branch, and the search is exhausted
when none was recorded. -/
def finishSearchPass (st : OneWireSearch) (last_zero : Nat) : OneWireSearch :=
  { st with
    last_discrepancy := last_zero
    last_device := last_zero == 0 }

/-- The 64-bit loop of OneWireSearch::next (search.rs lines 111-174).
The fuel argument is a structural recursion bound; the loop itself exits
through the id_bit_num > 64 check, and next supplies fuel 64, which the
remaining iteration count never exceeds, so the fuel-exhausted branch is
unreachable. The Bool result is the value the source breaks with.
Note that the source records the zero branch (last_zero, and the family
discrepancy for positions below 9) whenever the chosen direction is 0,
before the bus bits are read. -/
def OneWireSearch.searchLoop {σ : Type} (bus : OneWireBus σ) :
    Nat → OneWireSearch → σ → Nat → Nat → Nat → Nat →
    OneWireSearch × σ × Except OwError Bool
  | 0, st, ow, _, _, _, _ => (st, ow, Except.error OwError.other)
  | fuel + 1, st, ow, id_bit_num, last_zero, idx, rom_mask =>
    let dir := searchDir st id_bit_num idx rom_mask
    let last_zero := if !dir then id_bit_num else last_zero
    let st := recordFamilyDiscrepancy st dir id_bit_num
    match readSearchBits bus ow dir with
    | (Except.error e, ow) => (st, ow, Except.error e)
    | (Except.ok (id_bit, complement_bit, write), ow) =>
      if id_bit && complement_bit then
        (st, ow, Except.ok false)
      else
        let set := if id_bit != complement_bit then id_bit else dir
        let st := writeRomBit st idx rom_mask set
        match (if write then bus.writeBit set ow else (Except.ok (), ow)) with
        | (Except.error e, ow) => (st, ow, Except.error e)
        | (Except.ok _, ow) =>
          let id_bit_num := id_bit_num + 1
          let rom_mask := (rom_mask <<< 1) % 256
          let idx := if rom_mask == 0 then idx + 1 else idx
          let rom_mask := if rom_mask == 0 then 1 else rom_mask
          if id_bit_num > 64 then
            (finishSearchPass st last_zero, ow, Except.ok true)
          else
            OneWireSearch.searchLoop bus fuel st ow id_bit_num last_zero idx rom_mask

/-- OneWireSearch::next (search.rs lines 92-189). -/
def OneWireSearch.next {σ : Type} (bus : OneWireBus σ) (st : OneWireSearch) (ow : σ) :
    OneWireSearch × σ × Except OwError (Option Nat) :=
  match bus.getOverdriveMode ow with
  | (Except.error e, ow) => (st, ow, Except.error e)
  | (Except.ok od, ow) =>
    if od then (st, ow, Except.error OwError.busInvalidSpeed)
    else if st.last_device then (st, ow, Except.ok none)
    else
      match bus.reset ow with
      | (Except.error e, ow) => (st, ow, Except.error e)
      | (Except.ok status, ow) =>
        if !status.presence then (st, ow, Except.error OwError.noDevicePresent)
        else if status.shortcircuit then (st, ow, Except.error OwError.shortCircuit)
        else
          match bus.writeByte st.cmd ow with
          | (Except.error e, ow) => (st, ow, Except.error e)
          | (Except.ok _, ow) =>
            match OneWireSearch.searchLoop bus 64 st ow 1 0 0 1 with
            | (st, ow, Except.error e) => (st, ow, Except.error e)
            | (st, ow, Except.ok res) =>
              if !res || (st.rom.getD 0 0 == 0) then (st, ow, Except.ok none)
              else if !(OneWireCrc.validate st.rom) then
                (st, ow, Except.error OwError.invalidCrc)
              else if st.family != 0 && st.rom.getD 0 0 != st.family then
                (st, ow, Except.ok none)
              else (st, ow, Except.ok (some (fromLeBytes st.rom)))

/-- The state verify hands to next (search.rs lines 196-198): the reset
state with the ROM bytes of the code under test and last_discrepancy 64. -/
def OneWireSearch.verifySeed (st : OneWireSearch) (rom : Nat) : OneWireSearch :=
  { st.reset with rom := toLeBytes rom, last_discrepancy := 64 }

/-- OneWireSearch::verify (search.rs lines 195-202). The question-mark
operator propagates an error from next before the second reset runs. -/
def OneWireSearch.verify {σ : Type} (bus : OneWireBus σ) (st : OneWireSearch)
    (ow : σ) (rom : Nat) : OneWireSearch × σ × Except OwError Bool :=
  match OneWireSearch.next bus (st.verifySeed rom) ow with
  | (st, ow, Except.error e) => (st, ow, Except.error e)
  | (st, ow, Except.ok res) =>
    (st.reset, ow, Except.ok (res == some rom))

/-!
### The suspending search engine, from embedded-onewire/src/search_async.rs

In the suspending revision the triplet primitive takes no direction
argument and additionally returns the direction the bridge chose, and
the zero branch is recorded inside the both-bits-zero case only, as in
the referenced application note. Embedded here (with the triplet-read
feature, as implemented by the DS2484 bridge) for comparison with the
blocking revision.
-/

/-- The OneWireAsync trait operations used by the suspending search
engine (traits_async.rs, search_async.rs). -/
structure OneWireBusAsync (σ : Type) where
  getOverdriveMode : σ → Bool × σ
  reset : σ → Except OwError OwStatus × σ
  writeByte : Nat → σ → Except OwError Unit × σ
  readTriplet : σ → Except OwError (Bool × Bool × Bool) × σ

/-- The 64-bit loop of OneWireSearchAsync::next (search_async.rs lines
117-185), triplet-read branch: the zero branch is recorded only when
both bits read 0, using the direction returned by the triplet. -/
def asyncSearchLoop {σ : Type} (bus : OneWireBusAsync σ) :
    Nat → OneWireSearch → σ → Nat → Nat → Nat → Nat →
    OneWireSearch × σ × Except OwError Bool
  | 0, st, ow, _, _, _, _ => (st, ow, Except.error OwError.other)
  | fuel + 1, st, ow, id_bit_num, last_zero, idx, rom_mask =>
    match bus.readTriplet ow with
    | (Except.error e, ow) => (st, ow, Except.error e)
    | (Except.ok (id_bit, complement_bit, dir), ow) =>
      if id_bit && complement_bit then
        (st, ow, Except.ok false)
      else
        let (set, last_zero, st) :=
          if id_bit != complement_bit then (id_bit, last_zero, st)
          else
            (dir,
              if !dir then id_bit_num else last_zero,
              if !dir then
                (if id_bit_num < 9
                 then { st with last_family_discrepancy := id_bit_num }
                 else st)
              else st)
        let st := { st with rom :=
          (if set then st.rom.set idx ((st.rom.getD idx 0) ||| rom_mask)
           else st.rom.set idx ((st.rom.getD idx 0) &&& (255 ^^^ rom_mask))) }
        let id_bit_num := id_bit_num + 1
        let rom_mask := (rom_mask <<< 1) % 256
        let (idx, rom_mask) := if rom_mask == 0 then (idx + 1, 1) else (idx, rom_mask)
        if id_bit_num > 64 then
          ({ st with
              last_discrepancy := last_zero
              last_device := last_zero == 0 }, ow, Except.ok true)
        else
          asyncSearchLoop bus fuel st ow id_bit_num last_zero idx rom_mask

/-- OneWireSearchAsync::next (search_async.rs lines 98-200). -/
def asyncNext {σ : Type} (bus : OneWireBusAsync σ) (st : OneWireSearch) (ow : σ) :
    OneWireSearch × σ × Except OwError (Option Nat) :=
  match bus.getOverdriveMode ow with
  | (od, ow) =>
    if od then (st, ow, Except.error OwError.busInvalidSpeed)
    else if st.last_device then (st, ow, Except.ok none)
    else
      match bus.reset ow with
      | (Except.error e, ow) => (st, ow, Except.error e)
      | (Except.ok status, ow) =>
        if !status.presence then (st, ow, Except.error OwError.noDevicePresent)
        else if status.shortcircuit then (st, ow, Except.error OwError.shortCircuit)
        else
          match bus.writeByte st.cmd ow with
          | (Except.error e, ow) => (st, ow, Except.error e)
          | (Except.ok _, ow) =>
            match asyncSearchLoop bus 64 st ow 1 0 0 1 with
            | (st, ow, Except.error e) => (st, ow, Except.error e)
            | (st, ow, Except.ok res) =>
              if !res || (st.rom.getD 0 0 == 0) then (st, ow, Except.ok none)
              else if !(OneWireCrc.validate st.rom) then
                (st, ow, Except.error OwError.invalidCrc)
              else if st.family != 0 && st.rom.getD 0 0 != st.family then
                (st, ow, Except.ok none)
              else (st, ow, Except.ok (some (fromLeBytes st.rom)))

/-!
#### Test fixtures: concrete buses

The bus state of each fixture is a Nat counting the triplet reads
performed so far, so that a fixture can drive a chosen bit sequence.
-/

/-- A bus whose triplet always reads id bit 1 and complement 0, as a
single device whose ROM bits are all ones would drive them. -/
def busOnes : OneWireBus Nat :=
  { getOverdriveMode := fun n => (Except.ok false, n)
    reset := fun n => (Except.ok ⟨true, false⟩, n)
    writeByte := fun _ n => (Except.ok (), n)
    writeBit := fun _ n => (Except.ok (), n)
    readBit := fun n => (Except.error OwError.unimplemented, n)
    readTriplet := fun _ n => (Except.ok (true, false), n + 1) }

/-- The same fixture for the suspending engine; the triplet also
reports direction 0. -/
def busOnesAsync : OneWireBusAsync Nat :=
  { getOverdriveMode := fun n => (false, n)
    reset := fun n => (Except.ok ⟨true, false⟩, n)
    writeByte := fun _ n => (Except.ok (), n)
    readTriplet := fun n => (Except.ok (true, false, false), n + 1) }

/-- A bus presenting exactly one device with ROM code r: the k-th
triplet reads bit k of r and its complement. -/
def busOfRom (r : Nat) : OneWireBus Nat :=
  { getOverdriveMode := fun n => (Except.ok false, n)
    reset := fun n => (Except.ok ⟨true, false⟩, n)
    writeByte := fun _ n => (Except.ok (), n)
    writeBit := fun _ n => (Except.ok (), n)
    readBit := fun n => (Except.error OwError.unimplemented, n)
    readTriplet := fun _ n => (Except.ok (r.testBit n, !r.testBit n), n + 1) }

/-- A bus whose reset reports no presence pulse. -/
def busNoPresence : OneWireBus Nat :=
  { getOverdriveMode := fun n => (Except.ok false, n)
    reset := fun n => (Except.ok ⟨false, false⟩, n)
    writeByte := fun _ n => (Except.ok (), n)
    writeBit := fun _ n => (Except.ok (), n)
    readBit := fun n => (Except.error OwError.unimplemented, n)
    readTriplet := fun _ n => (Except.ok (true, false), n + 1) }

/-- A CRC-valid ROM code with family byte 0x28 and zero serial; the
trailing byte 30 is the CRC-8 of the first seven bytes. -/
def romA : Nat := fromLeBytes [0x28, 0, 0, 0, 0, 0, 0, 30]

/-- A CRC-valid ROM code with family byte 0x10 and zero serial; the
trailing byte 251 is the CRC-8 of the first seven bytes. -/
def romMismatch : Nat := fromLeBytes [0x10, 0, 0, 0, 0, 0, 0, 251]

/-- A bus that drives all-ones bits on the first search pass (64
triplets) and the bits of romMismatch on the second pass. -/
def busMix : OneWireBus Nat :=
  { getOverdriveMode := fun n => (Except.ok false, n)
    reset := fun n => (Except.ok ⟨true, false⟩, n)
    writeByte := fun _ n => (Except.ok (), n)
    writeBit := fun _ n => (Except.ok (), n)
    readBit := fun n => (Except.error OwError.unimplemented, n)
    readTriplet := fun _ n =>
      (Except.ok (if n < 64 then (true, false)
        else (romMismatch.testBit (n - 64), !romMismatch.testBit (n - 64))),
       n + 1) }

/-!
### DS2484 bridge, from ds2484-rs/src/registers.rs and onewire.rs

The I2C transport is embedded as a deterministic oracle: each one-byte
read transaction returns the next byte of a fixed response stream, and
every write transaction (including the write half of a write-read
transaction) is recorded in order. The transport itself is infallible
in the model; the claims concern the bridge protocol above it.
-/

/-- The I2C transport state. -/
structure I2cState where
  resp : Nat → Nat
  reads : Nat
  writes : List (List Nat)
  delays : Nat

/-- An I2C write transaction. -/
def i2cWrite (s : I2cState) (bytes : List Nat) : I2cState :=
  { s with writes := s.writes ++ [bytes] }

/-- A one-byte I2C read transaction. -/
def i2cRead1 (s : I2cState) : Nat × I2cState :=
  (s.resp s.reads, { s with reads := s.reads + 1 })

/-- A write-read transaction with a one-byte read phase. -/
def i2cWriteRead1 (s : I2cState) (bytes : List Nat) : Nat × I2cState :=
  (s.resp s.reads,
    { s with writes := s.writes ++ [bytes], reads := s.reads + 1 })

/-- delay.delay_ms(1): counted, since the claims mention the fixed
pause between polling attempts. -/
def delayMs (s : I2cState) : I2cState :=
  { s with delays := s.delays + 1 }

/-- The device-side fields of Ds2484 (registers.rs lines 17-24); the
fixed I2C address is not modelled since the transport oracle is
single-device. -/
structure Ds2484 where
  retries : Nat
  reset : Bool
  overdrive : Bool

/-- A bridge together with its transport. -/
structure DsState where
  dev : Ds2484
  i2c : I2cState

/-- Ds2484Error (ds2484-rs/src/error.rs), with the I2C payload elided. -/
inductive Ds2484Error where
  | i2c
  | retriesExceeded
deriving DecidableEq

/-- Both Ds2484Error variants are wrapped into OneWireError::Other by
the From conversion used by the question-mark operator. -/
def liftDs : Ds2484Error → OwError := fun _ => OwError.other

/-- Command and pointer constants (registers.rs lines 9-11, onewire.rs
lines 13-19). -/
def READ_PTR_CMD : Nat := 0xe1

/-- Device status register pointer. -/
def DEVICE_STATUS_PTR : Nat := 0xf0

/-- Device reset command. -/
def DEVICE_RST_CMD : Nat := 0xf0

/-- 1-Wire reset command. -/
def ONEWIRE_RESET_CMD : Nat := 0xb4

/-- 1-Wire write byte command. -/
def ONEWIRE_WRITE_BYTE : Nat := 0xa5

/-- 1-Wire read byte command. -/
def ONEWIRE_READ_BYTE : Nat := 0x96

/-- 1-Wire read data pointer. -/
def ONEWIRE_READ_DATA_PTR : Nat := 0xe1

/-- 1-Wire single-bit command. -/
def ONEWIRE_SINGLE_BIT : Nat := 0x87

/-- 1-Wire triplet command. -/
def ONEWIRE_TRIPLET : Nat := 0x78

/-- Overdrive skip-ROM command (consts.rs line 36). -/
def ONEWIRE_SKIP_ROM_CMD_OD : Nat := 0x3c

/-- Configuration register write address and read pointer
(registers.rs lines 344-345). -/
def CONFIG_WRITE_ADDR : Nat := 0xd2

/-- Configuration register read pointer. -/
def CONFIG_READ_PTR : Nat := 0xc3

/-!
The DeviceStatus bitfield decode (registers.rs lines 147-214):
bit 0 is 1WB, bit 1 PPD, bit 2 SD, bit 3 LL, bit 4 RST, bit 5 SBR,
bit 6 TSB, bit 7 DIR.
-/

namespace DeviceStatus

/-- Bus-busy flag. -/
def onewire_busy (status : Nat) : Bool := status.testBit 0

/-- Presence-pulse-detect flag. -/
def present_pulse_detect (status : Nat) : Bool := status.testBit 1

/-- Short-detect flag. -/
def short_detect (status : Nat) : Bool := status.testBit 2

/-- Device-reset flag. -/
def device_reset (status : Nat) : Bool := status.testBit 4

/-- Single-bit-result flag. -/
def single_bit_result (status : Nat) : Bool := status.testBit 5

/-- Second triplet bit flag. -/
def triplet_second_bit (status : Nat) : Bool := status.testBit 6

/-- Branch-direction-taken flag. -/
def branch_dir_taken (status : Nat) : Bool := status.testBit 7

end DeviceStatus

/-- The configuration encode cfg_to_u8 (registers.rs lines 339-341):
keep the low nibble and place its bitwise complement in the high
nibble. The u8 complement is embedded as xor with 255. -/
def cfg_to_u8 (cfg : Nat) : Nat :=
  (cfg &&& 0x0f) ||| (((255 ^^^ cfg) &&& 0x0f) <<< 4)

/-- The onewire_speed bit (bit 3) of the raw configuration byte. -/
def cfg_onewire_speed (cfg : Nat) : Bool := cfg.testBit 3

/-- The polling loop of the blocking Ds2484::bus_reset (registers.rs
lines 96-105). The source declares status immutable and reads into the
temporary one-element array built from status.0, so every byte read
from the transport is discarded and the loop condition only ever sees
the stale default status. The fuel is retries + 2: the break on
tries > retries always fires within that many iterations, so the
fuel-exhausted branch is unreachable. -/
def busResetLoop (retries : Nat) : Nat → Nat → Nat → I2cState → Nat × Nat × I2cState
  | 0, tries, status, s => (tries, status, s)
  | fuel + 1, tries, status, s =>
    let (_discarded, s) := i2cRead1 s
    if DeviceStatus.device_reset status || decide (tries > retries) then
      (tries, status, s)
    else
      busResetLoop retries fuel (tries + 1) status (delayMs s)

/-- The blocking Ds2484::bus_reset (registers.rs lines 93-111): write
the device-reset command, set the reset flag, poll the status with the
discarding loop above, and fail with RetriesExceeded when the retry
budget was exceeded. -/
def dsBusReset (s : DsState) : Except Ds2484Error Nat × DsState :=
  let io := i2cWrite s.i2c [DEVICE_RST_CMD]
  let dev := { s.dev with reset := true }
  let (tries, status, io) := busResetLoop dev.retries (dev.retries + 2) 0 0 io
  if tries > dev.retries then
    (Except.error Ds2484Error.retriesExceeded, ⟨dev, io⟩)
  else
    (Except.ok status, ⟨dev, io⟩)

/-- The polling loop of the blocking Ds2484::onewire_wait (registers.rs
lines 118-125), with the same discarded read as busResetLoop. -/
def onewireWaitLoop (retries : Nat) : Nat → Nat → Nat → I2cState → Nat × Nat × I2cState
  | 0, tries, status, s => (tries, status, s)
  | fuel + 1, tries, status, s =>
    let (_discarded, s) := i2cRead1 s
    if !DeviceStatus.onewire_busy status || decide (tries > retries) then
      (tries, status, s)
    else
      onewireWaitLoop retries fuel (tries + 1) status (delayMs s)

/-- The blocking Ds2484::onewire_wait (registers.rs lines 113-132):
point the read cursor at the status register, poll until not busy or
the retry budget is exceeded, and fail with RetriesExceeded only when
still busy after exceeding the budget. -/
def dsOnewireWait (s : DsState) : Except Ds2484Error Nat × DsState :=
  let io := i2cWrite s.i2c [READ_PTR_CMD, DEVICE_STATUS_PTR]
  let (tries, status, io) := onewireWaitLoop s.dev.retries (s.dev.retries + 2) 0 0 io
  if DeviceStatus.onewire_busy status && decide (tries > s.dev.retries) then
    (Except.error Ds2484Error.retriesExceeded, ⟨s.dev, io⟩)
  else
    (Except.ok status, ⟨s.dev, io⟩)

/-- DeviceConfiguration::read for the blocking bridge (registers.rs
lines 347-354): a write-read transaction whose read phase goes into the
temporary one-element array built from self.0, so the byte read back is
discarded and the configuration value is unchanged. -/
def cfgRead (cfg : Nat) (s : DsState) : Except Ds2484Error Nat × DsState :=
  let (_discarded, io) := i2cWriteRead1 s.i2c [READ_PTR_CMD, CONFIG_READ_PTR]
  (Except.ok cfg, ⟨s.dev, io⟩)

/-- DeviceConfiguration::write for the blocking bridge (registers.rs
lines 356-365): wait for the bus, then one write-read transaction
transmitting the register-select byte 0xD2 followed by the raw bitfield
storage byte self.0 — not its cfg_to_u8 conversion — whose read-back
phase is again discarded into a temporary; finally clear the
device-reset flag. -/
def cfgWrite (cfg : Nat) (s : DsState) : Except Ds2484Error Nat × DsState :=
  match dsOnewireWait s with
  | (Except.error e, s) => (Except.error e, s)
  | (Except.ok _, s) =>
    let (_readback, io) := i2cWriteRead1 s.i2c [CONFIG_WRITE_ADDR, cfg]
    (Except.ok cfg, ⟨{ s.dev with reset := false }, io⟩)

/-- OneWire::reset for Ds2484 (onewire.rs lines 26-43): rejected with
BusUninitialized while the device-reset flag is set, before any
transport transaction. -/
def dsReset (s : DsState) : Except OwError Nat × DsState :=
  if s.dev.reset then (Except.error OwError.busUninitialized, s)
  else
    match dsOnewireWait s with
    | (Except.error e, s) => (Except.error (liftDs e), s)
    | (Except.ok _, s) =>
      let io := i2cWrite s.i2c [ONEWIRE_RESET_CMD]
      match dsOnewireWait ⟨s.dev, io⟩ with
      | (Except.error e, s) => (Except.error (liftDs e), s)
      | (Except.ok v, s) =>
        if DeviceStatus.short_detect v then (Except.error OwError.shortCircuit, s)
        else if !DeviceStatus.present_pulse_detect v then
          (Except.error OwError.noDevicePresent, s)
        else (Except.ok v, s)

/-- OneWire::write_byte for Ds2484 (onewire.rs lines 45-54). -/
def dsWriteByte (byte : Nat) (s : DsState) : Except OwError Unit × DsState :=
  if s.dev.reset then (Except.error OwError.busUninitialized, s)
  else
    match dsOnewireWait s with
    | (Except.error e, s) => (Except.error (liftDs e), s)
    | (Except.ok _, s) =>
      (Except.ok (), ⟨s.dev, i2cWrite s.i2c [ONEWIRE_WRITE_BYTE, byte]⟩)

/-- OneWire::read_byte for Ds2484 (onewire.rs lines 56-70). -/
def dsReadByte (s : DsState) : Except OwError Nat × DsState :=
  if s.dev.reset then (Except.error OwError.busUninitialized, s)
  else
    match dsOnewireWait s with
    | (Except.error e, s) => (Except.error (liftDs e), s)
    | (Except.ok _, s) =>
      let io := i2cWrite s.i2c [ONEWIRE_READ_BYTE]
      match dsOnewireWait ⟨s.dev, io⟩ with
      | (Except.error e, s) => (Except.error (liftDs e), s)
      | (Except.ok _, s) =>
        let (val, io) := i2cWriteRead1 s.i2c [READ_PTR_CMD, ONEWIRE_READ_DATA_PTR]
        (Except.ok val, ⟨s.dev, io⟩)

/-- OneWire::write_bit for Ds2484 (onewire.rs lines 72-84). -/
def dsWriteBit (bit : Bool) (s : DsState) : Except OwError Unit × DsState :=
  if s.dev.reset then (Except.error OwError.busUninitialized, s)
  else
    match dsOnewireWait s with
    | (Except.error e, s) => (Except.error (liftDs e), s)
    | (Except.ok _, s) =>
      (Except.ok (),
        ⟨s.dev, i2cWrite s.i2c [ONEWIRE_SINGLE_BIT, if bit then 0x80 else 0x0]⟩)

/-- OneWire::read_bit for Ds2484 (onewire.rs lines 86-92): write a one
bit, then sample the single-bit-result status flag. -/
def dsReadBit (s : DsState) : Except OwError Bool × DsState :=
  if s.dev.reset then (Except.error OwError.busUninitialized, s)
  else
    match dsWriteBit true s with
    | (Except.error e, s) => (Except.error e, s)
    | (Except.ok _, s) =>
      match dsOnewireWait s with
      | (Except.error e, s) => (Except.error (liftDs e), s)
      | (Except.ok v, s) => (Except.ok (DeviceStatus.single_bit_result v), s)

/-- OneWire::read_triplet for Ds2484 (onewire.rs lines 94-113). -/
def dsReadTriplet (s : DsState) : Except OwError (Bool × Bool × Bool) × DsState :=
  if s.dev.reset then (Except.error OwError.busUninitialized, s)
  else
    match dsOnewireWait s with
    | (Except.error e, s) => (Except.error (liftDs e), s)
    | (Except.ok v, s) =>
      let direction := DeviceStatus.branch_dir_taken v
      let io := i2cWrite s.i2c [ONEWIRE_TRIPLET, if direction then 0xff else 0x0]
      match dsOnewireWait ⟨s.dev, io⟩ with
      | (Except.error e, s) => (Except.error (liftDs e), s)
      | (Except.ok v, s) =>
        (Except.ok (DeviceStatus.single_bit_result v,
          DeviceStatus.triplet_second_bit v,
          DeviceStatus.branch_dir_taken v), s)

/-- OneWire::set_overdrive_mode for Ds2484 (onewire.rs lines 119-141):
read the configuration register (whose result the blocking revision
discards, see cfgRead), return immediately when the requested mode
equals the read speed bit; otherwise, when enabling, reset the bus,
send the overdrive skip-ROM command, write the configuration with the
speed bit set, mark overdrive active and reset again; when disabling,
only write the configuration with the speed bit cleared, mark standard
speed and reset once. -/
def dsSetOverdriveMode (enable : Bool) (s : DsState) : Except OwError Unit × DsState :=
  let config : Nat := 0
  match cfgRead config s with
  | (Except.error e, s) => (Except.error (liftDs e), s)
  | (Except.ok config, s) =>
    let cur := cfg_onewire_speed config
    if enable == cur then (Except.ok (), s)
    else if !cur then
      match dsReset s with
      | (Except.error e, s) => (Except.error e, s)
      | (Except.ok _, s) =>
        match dsWriteByte ONEWIRE_SKIP_ROM_CMD_OD s with
        | (Except.error e, s) => (Except.error e, s)
        | (Except.ok _, s) =>
          match cfgWrite (config ||| 0x08) s with
          | (Except.error e, s) => (Except.error (liftDs e), s)
          | (Except.ok _, s) =>
            match dsReset ⟨{ s.dev with overdrive := true }, s.i2c⟩ with
            | (Except.error e, s) => (Except.error e, s)
            | (Except.ok _, s) => (Except.ok (), s)
    else
      match cfgWrite (config &&& (255 ^^^ 0x08)) s with
      | (Except.error e, s) => (Except.error (liftDs e), s)
      | (Except.ok _, s) =>
        match dsReset ⟨{ s.dev with overdrive := false }, s.i2c⟩ with
        | (Except.error e, s) => (Except.error e, s)
        | (Except.ok _, s) => (Except.ok (), s)

/-!
### The suspending DS2484 bridge, from registers_async.rs and
onewire_async.rs

The suspending revision reads the status into a mutable local buffer
and decodes it, so its polling loops actually observe the bus; its
configuration write transmits u8::from(config), the cfg_to_u8 encoding.
Its primitives carry no BusUninitialized check.
-/

/-- The polling loop of Ds2484Async::bus_reset (registers_async.rs
lines 96-104): the byte just read is decoded and tested. On break the
latest byte read is returned as the status. -/
def asyncBusResetLoop (retries : Nat) : Nat → Nat → Nat → I2cState → Nat × Nat × I2cState
  | 0, tries, status, s => (tries, status, s)
  | fuel + 1, tries, _status, s =>
    let (b, s) := i2cRead1 s
    if DeviceStatus.device_reset b || decide (tries > retries) then
      (tries, b, s)
    else
      asyncBusResetLoop retries fuel (tries + 1) b (delayMs s)

/-- Ds2484Async::bus_reset (registers_async.rs lines 91-111). -/
def asyncBusReset (s : DsState) : Except Ds2484Error Nat × DsState :=
  let io := i2cWrite s.i2c [DEVICE_RST_CMD]
  let dev := { s.dev with reset := true }
  let (tries, status, io) := asyncBusResetLoop dev.retries (dev.retries + 2) 0 0 io
  if tries > dev.retries then
    (Except.error Ds2484Error.retriesExceeded, ⟨dev, io⟩)
  else
    (Except.ok status, ⟨dev, io⟩)

/-- The polling loop of Ds2484Async::onewire_wait (registers_async.rs
lines 119-127). -/
def asyncOnewireWaitLoop (retries : Nat) : Nat → Nat → Nat → I2cState → Nat × Nat × I2cState
  | 0, tries, status, s => (tries, status, s)
  | fuel + 1, tries, _status, s =>
    let (b, s) := i2cRead1 s
    if !DeviceStatus.onewire_busy b || decide (tries > retries) then
      (tries, b, s)
    else
      asyncOnewireWaitLoop retries fuel (tries + 1) b (delayMs s)

/-- Ds2484Async::onewire_wait (registers_async.rs lines 113-134). -/
def asyncOnewireWait (s : DsState) : Except Ds2484Error Nat × DsState :=
  let io := i2cWrite s.i2c [READ_PTR_CMD, DEVICE_STATUS_PTR]
  let (tries, status, io) := asyncOnewireWaitLoop s.dev.retries (s.dev.retries + 2) 0 0 io
  if DeviceStatus.onewire_busy status && decide (tries > s.dev.retries) then
    (Except.error Ds2484Error.retriesExceeded, ⟨s.dev, io⟩)
  else
    (Except.ok status, ⟨s.dev, io⟩)

/-- DeviceConfiguration::async_read (registers_async.rs lines 166-176):
the read byte is stored, replacing the configuration value. -/
def asyncCfgRead (_cfg : Nat) (s : DsState) : Except Ds2484Error Nat × DsState :=
  let (val, io) := i2cWriteRead1 s.i2c [READ_PTR_CMD, CONFIG_READ_PTR]
  (Except.ok val, ⟨s.dev, io⟩)

/-- DeviceConfiguration::async_write (registers_async.rs lines 178-190):
wait, transmit the encoded byte u8::from(self) = cfg_to_u8(self.0)
after the register-select byte, store the read-back as the new value,
and clear the device-reset flag. -/
def asyncCfgWrite (cfg : Nat) (s : DsState) : Except Ds2484Error Nat × DsState :=
  match asyncOnewireWait s with
  | (Except.error e, s) => (Except.error e, s)
  | (Except.ok _, s) =>
    let (val, io) := i2cWriteRead1 s.i2c [CONFIG_WRITE_ADDR, cfg_to_u8 cfg]
    (Except.ok val, ⟨{ s.dev with reset := false }, io⟩)

/-- OneWireAsync::reset for Ds2484Async (onewire_async.rs lines 24-39);
this revision has no BusUninitialized check. -/
def asyncReset (s : DsState) : Except OwError Nat × DsState :=
  match asyncOnewireWait s with
  | (Except.error e, s) => (Except.error (liftDs e), s)
  | (Except.ok _, s) =>
    let io := i2cWrite s.i2c [ONEWIRE_RESET_CMD]
    match asyncOnewireWait ⟨s.dev, io⟩ with
    | (Except.error e, s) => (Except.error (liftDs e), s)
    | (Except.ok v, s) =>
      if DeviceStatus.short_detect v then (Except.error OwError.shortCircuit, s)
      else if !DeviceStatus.present_pulse_detect v then
        (Except.error OwError.noDevicePresent, s)
      else (Except.ok v, s)

/-- OneWireAsync::write_byte for Ds2484Async (onewire_async.rs lines
41-48). -/
def asyncWriteByte (byte : Nat) (s : DsState) : Except OwError Unit × DsState :=
  match asyncOnewireWait s with
  | (Except.error e, s) => (Except.error (liftDs e), s)
  | (Except.ok _, s) =>
    (Except.ok (), ⟨s.dev, i2cWrite s.i2c [ONEWIRE_WRITE_BYTE, byte]⟩)

/-- OneWireAsync::set_overdrive_mode for Ds2484Async (onewire_async.rs
lines 108-130): same branch structure as the blocking revision, over
the correctly-reading register accessors. -/
def asyncSetOverdriveMode (enable : Bool) (s : DsState) : Except OwError Unit × DsState :=
  let config : Nat := 0
  match asyncCfgRead config s with
  | (Except.error e, s) => (Except.error (liftDs e), s)
  | (Except.ok config, s) =>
    let cur := cfg_onewire_speed config
    if enable == cur then (Except.ok (), s)
    else if !cur then
      match asyncReset s with
      | (Except.error e, s) => (Except.error e, s)
      | (Except.ok _, s) =>
        match asyncWriteByte ONEWIRE_SKIP_ROM_CMD_OD s with
        | (Except.error e, s) => (Except.error e, s)
        | (Except.ok _, s) =>
          match asyncCfgWrite (config ||| 0x08) s with
          | (Except.error e, s) => (Except.error (liftDs e), s)
          | (Except.ok _, s) =>
            match asyncReset ⟨{ s.dev with overdrive := true }, s.i2c⟩ with
            | (Except.error e, s) => (Except.error e, s)
            | (Except.ok _, s) => (Except.ok (), s)
    else
      match asyncCfgWrite (config &&& (255 ^^^ 0x08)) s with
      | (Except.error e, s) => (Except.error (liftDs e), s)
      | (Except.ok _, s) =>
        match asyncReset ⟨{ s.dev with overdrive := false }, s.i2c⟩ with
        | (Except.error e, s) => (Except.error e, s)
        | (Except.ok _, s) => (Except.ok (), s)

/-!
#### Bridge fixtures and polling facts
-/

/-- A bridge state with a fresh transport whose every status read
returns the given byte. -/
def dsWith (retries : Nat) (rst od : Bool) (resp : Nat → Nat) : DsState :=
  { dev := { retries := retries, reset := rst, overdrive := od }
    i2c := { resp := resp, reads := 0, writes := [], delays := 0 } }

/-!
### Port-timing configuration builder, from registers.rs lines 374-607

Each parameter byte keeps a register tag in its high nibble and a table
index in its low nibble. The builder setters look up the requested
value in per-parameter tables with the iterator position method.
-/

/-- OneWirePortConfiguration (registers.rs lines 375-384), eight
parameter bytes. -/
structure OneWirePortConfiguration where
  t_rstl : Nat
  t_rstl_od : Nat
  t_msp : Nat
  t_msp_od : Nat
  t_w0l : Nat
  t_w0l_od : Nat
  t_rec0 : Nat
  r_wpu : Nat
deriving DecidableEq

/-- The Default values (registers.rs lines 503-516): index 6 with the
register tag in the high nibble. -/
def portDefault : OneWirePortConfiguration :=
  ⟨0x06, 0x16, 0x26, 0x36, 0x46, 0x56, 0x66, 0x86⟩

/-- Iterator position: the index of the first element satisfying the
predicate, as used by the builder setters. -/
def position (p : Nat → Bool) : List Nat → Option Nat
  | [] => none
  | x :: xs => if p x then some 0 else (position p xs).map (· + 1)

/-- The index a setter stores for a requested value: position of the
first table entry at least the requested value, defaulting to 0. -/
def selectIdx (table : List Nat) (v : Nat) : Nat :=
  (position (fun u => decide (v ≤ u)) table).getD 0

/-- tRSTL table, standard speed (registers.rs lines 534-537). -/
def TRSTL_NORMAL : List Nat :=
  [440000, 460000, 480000, 500000, 520000, 540000, 560000, 580000,
   600000, 620000, 640000, 660000, 680000, 700000, 720000, 740000]

/-- tRSTL table, overdrive (registers.rs lines 540-543). -/
def TRSTL_OVERDRIVE : List Nat :=
  [44000, 46000, 48000, 50000, 52000, 54000, 56000, 58000,
   60000, 62000, 64000, 66000, 68000, 70000, 72000, 74000]

/-- tMSP table, standard speed (registers.rs lines 551-554). -/
def TMSP_NORMAL : List Nat :=
  [58000, 58000, 60000, 62000, 64000, 66000, 68000, 70000,
   72000, 74000, 76000, 76000, 76000, 76000, 76000, 76000]

/-- tMSP table, overdrive (registers.rs lines 557-560). -/
def TMSP_OVERDRIVE : List Nat :=
  [5500, 5500, 6000, 6500, 7000, 7500, 8000, 8500,
   9000, 9500, 10000, 10500, 11000, 11000, 11000, 11000]

/-- tW0L table, standard speed (registers.rs lines 568-571). -/
def TW0L_NORMAL : List Nat :=
  [52000, 54000, 56000, 58000, 60000, 62000, 64000, 66000,
   68000, 70000, 70000, 70000, 70000, 70000, 70000, 70000]

/-- tW0L table, overdrive (registers.rs lines 574-577). -/
def TW0L_OVERDRIVE : List Nat :=
  [5000, 5500, 6000, 6500, 7000, 7500, 8000, 8500,
   9000, 9500, 10000, 10000, 10000, 10000, 10000, 10000]

/-- tREC0 table (registers.rs lines 585-587). -/
def TREC0_VALUES : List Nat :=
  [275, 275, 275, 275, 275, 275, 525, 775, 1025, 1275, 1525, 1775,
   2025, 2275, 2525, 2525]

/-- OneWireConfigurationBuilder::reset_pulse (registers.rs lines
533-547). -/
def OneWirePortConfiguration.reset_pulse (c : OneWirePortConfiguration)
    (normal overdrive : Nat) : OneWirePortConfiguration :=
  let index := selectIdx TRSTL_NORMAL normal
  let c := { c with t_rstl := (c.t_rstl &&& 0xf0) ||| index }
  let index := selectIdx TRSTL_OVERDRIVE overdrive
  { c with t_rstl_od := (c.t_rstl_od &&& 0xf0) ||| index }

/-- OneWireConfigurationBuilder::presence_detect_time (registers.rs
lines 550-564). -/
def OneWirePortConfiguration.presence_detect_time (c : OneWirePortConfiguration)
    (normal overdrive : Nat) : OneWirePortConfiguration :=
  let index := selectIdx TMSP_NORMAL normal
  let c := { c with t_msp := (c.t_msp &&& 0xf0) ||| index }
  let index := selectIdx TMSP_OVERDRIVE overdrive
  { c with t_msp_od := (c.t_msp_od &&& 0xf0) ||| index }

/-- OneWireConfigurationBuilder::write_zero_low_time (registers.rs
lines 567-581). -/
def OneWirePortConfiguration.write_zero_low_time (c : OneWirePortConfiguration)
    (normal overdrive : Nat) : OneWirePortConfiguration :=
  let index := selectIdx TW0L_NORMAL normal
  let c := { c with t_w0l := (c.t_w0l &&& 0xf0) ||| index }
  let index := selectIdx TW0L_OVERDRIVE overdrive
  { c with t_w0l_od := (c.t_w0l_od &&& 0xf0) ||| index }

/-- OneWireConfigurationBuilder::write_zero_recovery_time (registers.rs
lines 584-591). -/
def OneWirePortConfiguration.write_zero_recovery_time (c : OneWirePortConfiguration)
    (value : Nat) : OneWirePortConfiguration :=
  let index := selectIdx TREC0_VALUES value
  { c with t_rec0 := (c.t_rec0 &&& 0xf0) ||| index }

/-- OneWireConfigurationBuilder::weak_pullup_resistor (registers.rs
lines 594-601): below 1000 the nibble is cleared to index 0; otherwise
the byte is masked with 0xff, which leaves it unchanged. -/
def OneWirePortConfiguration.weak_pullup_resistor (c : OneWirePortConfiguration)
    (value : Nat) : OneWirePortConfiguration :=
  if value < 1000 then { c with r_wpu := c.r_wpu &&& 0xf0 }
  else { c with r_wpu := c.r_wpu &&& 0xff }

/-- The R_WPU decoder (registers.rs lines 467-473): nibbles 0 to 5 mean
500 Ohm, 6 to 15 mean 1000 Ohm. -/
def weak_pullup_resistor_ohms (c : OneWirePortConfiguration) : Nat :=
  if c.r_wpu &&& 0x0f < 0b0110 then 500 else 1000

/-- What the stored index must satisfy per the selection policy: either
it is the smallest index whose tabulated value reaches the request, or
it is 0 and every tabulated value is below the request. -/
def chosenSpec (table : List Nat) (v idx : Nat) : Prop :=
  (idx < table.length ∧ v ≤ table.getD idx 0 ∧ ∀ k < idx, table.getD k 0 < v)
  ∨ (idx = 0 ∧ ∀ k < table.length, table.getD k 0 < v)

/-- The two search passes of the C9 counterexample run: the first pass
drives all-ones bits (ending with an InvalidCrc error and
last_discrepancy 64), the second drives the bits of the CRC-valid code
romMismatch, whose family byte 0x10 differs from the filter 0x28. -/
def mixPass1 : OneWireSearch × Nat × Except OwError (Option Nat) :=
  OneWireSearch.next busMix (OneWireSearch.with_family 0xf0 0x28) 0

/-- Second pass of the C9 counterexample run. -/
def mixPass2 : OneWireSearch × Nat × Except OwError (Option Nat) :=
  OneWireSearch.next busMix mixPass1.1 mixPass1.2.1

/-! #### CRC facts -/

namespace OneWireCrc

/-- The table realises the eight calculation rounds on every byte. -/
lemma table_eq_calcRounds : ∀ x < 256, ONEWIRE_SRC_TABLE.getD x 0 = calcRounds 8 x := by
  decide

lemma table_length : ONEWIRE_SRC_TABLE.length = 256 := by decide

lemma table_nodup : ONEWIRE_SRC_TABLE.Nodup := by decide

lemma xor_lt_256 : ∀ x < 256, ∀ y < 256, x ^^^ y < 256 := by
  intro x hx y hy
  exact Nat.xor_lt_two_pow (n := 8) hx hy

lemma calcRounds_lt_256 : ∀ x < 256, calcRounds 8 x < 256 := by decide

/-- The eight calculation rounds are injective on bytes. -/
lemma calcRounds_inj : ∀ x < 256, ∀ y < 256,
    calcRounds 8 x = calcRounds 8 y → x = y := by
  intro x hx y hy h
  rw [← table_eq_calcRounds x hx, ← table_eq_calcRounds y hy] at h
  rw [List.getD_eq_getElem ONEWIRE_SRC_TABLE 0 (by rw [table_length]; exact hx),
    List.getD_eq_getElem ONEWIRE_SRC_TABLE 0 (by rw [table_length]; exact hy)] at h
  exact Fin.mk_eq_mk.mp ((List.nodup_iff_injective_get.mp table_nodup) h)

lemma update_lt_256 {c b : Nat} (hc : c < 256) (hb : b < 256) :
    update c b < 256 :=
  calcRounds_lt_256 _ (xor_lt_256 c hc b hb)

/-- update is injective in the accumulator argument. -/
lemma update_inj_left {c₁ c₂ b : Nat} (h₁ : c₁ < 256) (h₂ : c₂ < 256)
    (hb : b < 256) (hne : c₁ ≠ c₂) : update c₁ b ≠ update c₂ b := by
  intro h
  apply hne
  have hx := calcRounds_inj _ (xor_lt_256 c₁ h₁ b hb) _ (xor_lt_256 c₂ h₂ b hb) h
  have := congrArg (fun t => t ^^^ b) hx
  simpa [Nat.xor_cancel_right] using this

/-- update is injective in the byte argument. -/
lemma update_inj_right {c b₁ b₂ : Nat} (hc : c < 256) (h₁ : b₁ < 256)
    (h₂ : b₂ < 256) (hne : b₁ ≠ b₂) : update c b₁ ≠ update c b₂ := by
  intro h
  apply hne
  have hx := calcRounds_inj _ (xor_lt_256 c hc b₁ h₁) _ (xor_lt_256 c hc b₂ h₂) h
  have := congrArg (fun t => c ^^^ t) hx
  simpa [Nat.xor_cancel_left] using this

lemma foldl_update_lt_256 : ∀ (s : List Nat), (∀ b ∈ s, b < 256) →
    ∀ c < 256, s.foldl update c < 256 := by
  intro s
  induction s with
  | nil => intro _ c hc; simpa using hc
  | cons b t ih =>
    intro hb c hc
    rw [List.foldl_cons]
    exact ih (fun x hx => hb x (List.mem_cons_of_mem _ hx))
      _ (update_lt_256 hc (hb b (List.mem_cons_self b t)))

/-- Distinct accumulator seeds stay distinct through any byte sequence. -/
lemma foldl_update_inj : ∀ (s : List Nat), (∀ b ∈ s, b < 256) →
    ∀ c₁ < 256, ∀ c₂ < 256, c₁ ≠ c₂ →
    s.foldl update c₁ ≠ s.foldl update c₂ := by
  intro s
  induction s with
  | nil => intro _ c₁ _ c₂ _ hne; simpa using hne
  | cons b t ih =>
    intro hb c₁ h₁ c₂ h₂ hne
    rw [List.foldl_cons, List.foldl_cons]
    have hbb : b < 256 := hb b (List.mem_cons_self b t)
    exact ih (fun x hx => hb x (List.mem_cons_of_mem _ hx))
      _ (update_lt_256 h₁ hbb) _ (update_lt_256 h₂ hbb)
      (update_inj_left h₁ h₂ hbb hne)

lemma pow_shift_byte : ∀ j < 8, 1 <<< j < 256 ∧ 1 <<< j ≠ 0 := by decide

/-- Corrupting one bit of one byte changes the final accumulator value. -/
lemma foldl_update_flip : ∀ (s : List Nat) (i : Nat), (∀ b ∈ s, b < 256) →
    ∀ c < 256, i < s.length → ∀ j < 8,
    (flipBit s i j).foldl update c ≠ s.foldl update c := by
  intro s
  induction s with
  | nil => intro i _ c _ hi; simp at hi
  | cons b t ih =>
    intro i hb c hc hi j hj
    have hbb : b < 256 := hb b (List.mem_cons_self b t)
    have hbt : ∀ x ∈ t, x < 256 := fun x hx => hb x (List.mem_cons_of_mem _ hx)
    cases i with
    | zero =>
      have hflip : flipBit (b :: t) 0 j = (b ^^^ (1 <<< j)) :: t := by
        simp [flipBit]
      rw [hflip, List.foldl_cons, List.foldl_cons]
      have hm := pow_shift_byte j hj
      have hbx : b ^^^ (1 <<< j) < 256 := xor_lt_256 b hbb _ hm.1
      have hne : b ^^^ (1 <<< j) ≠ b := by
        intro h
        apply hm.2
        have := congrArg (fun t => b ^^^ t) h.symm
        simpa [Nat.xor_cancel_left, Nat.xor_self] using this.symm
      exact foldl_update_inj t hbt _ (update_lt_256 hc hbx) _ (update_lt_256 hc hbb)
        (update_inj_right hc hbx hbb hne)
    | succ i =>
      have hflip : flipBit (b :: t) (i + 1) j = b :: flipBit t i j := by
        simp [flipBit]
      rw [hflip, List.foldl_cons, List.foldl_cons]
      exact ih i hbt _ (update_lt_256 hc hbb) (by simpa using hi) j hj

end OneWireCrc

/-!
### Search engine facts and test fixtures
-/

lemma byte_getD_lt {l : List Nat} (n : Nat) (h : ∀ b ∈ l, b < 256) :
    l.getD n 0 < 256 := by
  rw [List.getD_eq_getElem?_getD]
  cases hx : l[n]? with
  | none => simp
  | some a => simpa using h a (List.getElem?_mem hx)

lemma byte_or_lt {x y : Nat} (hx : x < 256) (hy : y < 256) : x ||| y < 256 :=
  Nat.or_lt_two_pow (n := 8) hx hy

lemma byte_and_lt {x y : Nat} (hx : x < 256) : x &&& y < 256 :=
  Nat.lt_of_le_of_lt Nat.and_le_left hx

lemma byte_set_lt {l : List Nat} {idx v : Nat} (h : ∀ b ∈ l, b < 256)
    (hv : v < 256) : ∀ b ∈ l.set idx v, b < 256 := by
  intro b hb
  rcases List.mem_or_eq_of_mem_set hb with hmem | rfl
  · exact h b hmem
  · exact hv

lemma recordFamilyDiscrepancy_family (st : OneWireSearch) (dir : Bool) (i : Nat) :
    (recordFamilyDiscrepancy st dir i).family = st.family := by
  unfold recordFamilyDiscrepancy; split <;> rfl

lemma recordFamilyDiscrepancy_rom (st : OneWireSearch) (dir : Bool) (i : Nat) :
    (recordFamilyDiscrepancy st dir i).rom = st.rom := by
  unfold recordFamilyDiscrepancy; split <;> rfl

lemma writeRomBit_family (st : OneWireSearch) (idx m : Nat) (b : Bool) :
    (writeRomBit st idx m b).family = st.family := rfl

lemma writeRomBit_length (st : OneWireSearch) (idx m : Nat) (b : Bool) :
    (writeRomBit st idx m b).rom.length = st.rom.length := by
  unfold writeRomBit
  dsimp only
  split <;> rw [List.length_set]

lemma writeRomBit_bytes (st : OneWireSearch) (idx m : Nat) (b : Bool)
    (hm : m < 256) (hb : ∀ x ∈ st.rom, x < 256) :
    ∀ x ∈ (writeRomBit st idx m b).rom, x < 256 := by
  unfold writeRomBit
  dsimp only
  split
  · exact byte_set_lt hb (byte_or_lt (byte_getD_lt _ hb) hm)
  · exact byte_set_lt hb (byte_and_lt (byte_getD_lt _ hb))

lemma finishSearchPass_family (st : OneWireSearch) (lz : Nat) :
    (finishSearchPass st lz).family = st.family := rfl

lemma finishSearchPass_rom (st : OneWireSearch) (lz : Nat) :
    (finishSearchPass st lz).rom = st.rom := rfl

/-- The 64-bit loop never changes the family, preserves the length of
the ROM buffer, and keeps its entries below 256. -/
lemma searchLoop_inv {σ : Type} (bus : OneWireBus σ) :
    ∀ fuel (st : OneWireSearch) (ow : σ) id_bit_num last_zero idx rom_mask,
    rom_mask < 256 →
    (OneWireSearch.searchLoop bus fuel st ow id_bit_num last_zero idx rom_mask).1.family
        = st.family ∧
    (OneWireSearch.searchLoop bus fuel st ow id_bit_num last_zero idx rom_mask).1.rom.length
        = st.rom.length ∧
    ((∀ b ∈ st.rom, b < 256) →
      ∀ b ∈ (OneWireSearch.searchLoop bus fuel st ow id_bit_num last_zero idx rom_mask).1.rom,
        b < 256) := by
  intro fuel
  induction fuel with
  | zero =>
    intro st ow id_bit_num last_zero idx rom_mask _
    exact ⟨rfl, rfl, fun h => h⟩
  | succ n ih =>
    intro st ow id_bit_num last_zero idx rom_mask hm
    simp only [OneWireSearch.searchLoop]
    split
    next heq =>
      refine ⟨recordFamilyDiscrepancy_family .., ?_, ?_⟩
      · rw [recordFamilyDiscrepancy_rom]
      · intro hb
        rw [recordFamilyDiscrepancy_rom]
        exact hb
    next heq =>
      split
      · refine ⟨recordFamilyDiscrepancy_family .., ?_, ?_⟩
        · rw [recordFamilyDiscrepancy_rom]
        · intro hb
          rw [recordFamilyDiscrepancy_rom]
          exact hb
      · split
        next heqw =>
          refine ⟨?_, ?_, ?_⟩
          · rw [writeRomBit_family, recordFamilyDiscrepancy_family]
          · rw [writeRomBit_length, recordFamilyDiscrepancy_rom]
          · intro hb
            refine writeRomBit_bytes _ _ _ _ hm ?_
            rw [recordFamilyDiscrepancy_rom]
            exact hb
        next heqw =>
          split
          · refine ⟨?_, ?_, ?_⟩
            · rw [finishSearchPass_family, writeRomBit_family,
                recordFamilyDiscrepancy_family]
            · rw [finishSearchPass_rom, writeRomBit_length,
                recordFamilyDiscrepancy_rom]
            · intro hb
              rw [finishSearchPass_rom]
              refine writeRomBit_bytes _ _ _ _ hm ?_
              rw [recordFamilyDiscrepancy_rom]
              exact hb
          · have hm2 : (if (rom_mask <<< 1) % 256 == 0 then 1
                else (rom_mask <<< 1) % 256) < 256 := by
              split
              · omega
              · exact Nat.mod_lt _ (by omega)
            refine ⟨?_, ?_, ?_⟩
            · exact (ih _ _ _ _ _ _ hm2).1.trans
                (by rw [writeRomBit_family, recordFamilyDiscrepancy_family])
            · exact (ih _ _ _ _ _ _ hm2).2.1.trans
                (by rw [writeRomBit_length, recordFamilyDiscrepancy_rom])
            · intro hb
              refine (ih _ _ _ _ _ _ hm2).2.2 ?_
              refine writeRomBit_bytes _ _ _ _ hm ?_
              rw [recordFamilyDiscrepancy_rom]
              exact hb

lemma fromLeBytes_head_mod (l : List Nat) (hne : l ≠ [])
    (hb : l.getD 0 0 < 256) : fromLeBytes l % 256 = l.getD 0 0 := by
  cases l with
  | nil => exact absurd rfl hne
  | cons b t =>
    show (b + 256 * fromLeBytes t) % 256 = b
    rw [Nat.add_mul_mod_self_left]
    exact Nat.mod_eq_of_lt hb

/-- The blocking onewire_wait never observes the transport: it returns
Ok with the stale default status after exactly one read transaction and
no delay, for every bridge state — even one whose bus reports busy
forever. -/
theorem dsOnewireWait_eq (s : DsState) :
    dsOnewireWait s = (Except.ok 0,
      ⟨s.dev,
        { s.i2c with
          writes := s.i2c.writes ++ [[READ_PTR_CMD, DEVICE_STATUS_PTR]]
          reads := s.i2c.reads + 1 }⟩) := rfl

/-- The discarding busResetLoop counts tries up to retries + 1 and
performs one read per iteration. -/
lemma busResetLoop_count (retries : Nat) :
    ∀ fuel tries (s : I2cState), tries ≤ retries + 1 → tries + fuel = retries + 2 →
    (busResetLoop retries fuel tries 0 s).1 = retries + 1 ∧
    (busResetLoop retries fuel tries 0 s).2.2.reads = s.reads + fuel := by
  intro fuel
  induction fuel with
  | zero => intro tries s h1 h2; omega
  | succ n ih =>
    intro tries s h1 h2
    simp only [busResetLoop, DeviceStatus.device_reset, i2cRead1, delayMs]
    have hz : Nat.testBit 0 4 = false := rfl
    rw [hz]
    simp only [Bool.false_or]
    split
    next hgt =>
      have hgt' : tries > retries := by simpa using hgt
      have : tries = retries + 1 := by omega
      subst this
      exact ⟨rfl, by simp; omega⟩
    next hgt =>
      have hle : tries + 1 ≤ retries + 1 := by
        simp at hgt
        omega
      obtain ⟨ha, hb⟩ := ih (tries + 1) _ hle (by omega)
      refine ⟨ha, ?_⟩
      rw [hb]
      simp
      omega

/-- The blocking bus_reset always fails with RetriesExceeded after
retries + 2 read transactions, for every bridge state — even one whose
bus reports the device-reset flag on every read. -/
theorem dsBusReset_always_fails (s : DsState) :
    (dsBusReset s).1 = Except.error Ds2484Error.retriesExceeded ∧
    (dsBusReset s).2.i2c.reads = s.i2c.reads + (s.dev.retries + 2) := by
  obtain ⟨ha, hb⟩ := busResetLoop_count s.dev.retries (s.dev.retries + 2) 0
    (i2cWrite s.i2c [DEVICE_RST_CMD]) (by omega) (by omega)
  unfold dsBusReset
  constructor
  · simp only []
    rw [ha, if_pos (Nat.lt_succ_self _)]
  · simp only []
    rw [ha, if_pos (Nat.lt_succ_self _)]
    exact hb

lemma position_spec (p : Nat → Bool) :
    ∀ (l : List Nat),
    (match position p l with
     | some i => i < l.length ∧ p (l.getD i 0) = true ∧ ∀ k < i, p (l.getD k 0) = false
     | none => ∀ k < l.length, p (l.getD k 0) = false) := by
  intro l
  induction l with
  | nil =>
    simp [position]
  | cons x xs ih =>
    by_cases hp : p x = true
    · simp [position, hp]
    · rw [show position p (x :: xs) = (position p xs).map (· + 1) by
        simp [position, hp]]
      cases hq : position p xs with
      | none =>
        rw [hq] at ih
        simp only [Option.map_none']
        intro k hk
        cases k with
        | zero => simpa using hp
        | succ k =>
          rw [List.getD_cons_succ]
          exact ih k (by simpa using hk)
      | some i =>
        rw [hq] at ih
        simp only [Option.map_some']
        obtain ⟨hi, hpi, hbefore⟩ := ih
        refine ⟨by simpa using hi, by simpa using hpi, ?_⟩
        intro k hk
        cases k with
        | zero => simpa using hp
        | succ k =>
          rw [List.getD_cons_succ]
          exact hbefore k (by omega)

/-- The stored index satisfies the selection policy. -/
lemma selectIdx_chosen (table : List Nat) (v : Nat) :
    chosenSpec table v (selectIdx table v) := by
  have h := position_spec (fun u => decide (v ≤ u)) table
  unfold selectIdx
  cases hq : position (fun u => decide (v ≤ u)) table with
  | none =>
    rw [hq] at h
    right
    refine ⟨rfl, fun k hk => ?_⟩
    have := h k hk
    simpa using this
  | some i =>
    rw [hq] at h
    obtain ⟨hi, hpi, hbefore⟩ := h
    left
    refine ⟨by simpa using hi, by simpa using hpi, fun k hk => ?_⟩
    have := hbefore k (by simpa using hk)
    simpa using this

lemma selectIdx_lt16 (table : List Nat) (v : Nat) (hlen : table.length = 16) :
    selectIdx table v < 16 := by
  rcases selectIdx_chosen table v with ⟨h, -⟩ | ⟨h, -⟩
  · omega
  · omega

lemma nibble_or_eq : ∀ x < 256, ∀ i < 16, ((x &&& 0xf0) ||| i) &&& 0x0f = i := by
  decide

end OneWireRs

open OneWireRs OneWireRs.OneWireCrc

/-- Claim C10: for every accumulator byte and every input byte, the
table-driven update and the bitwise shift-and-xor update of the CRC-8
engine produce the same new accumulator value. -/
theorem crc_update_table_eq_update_calc (c b : Nat) (hc : c < 256) (hb : b < 256) :
    OneWireCrc.update_table c b = OneWireCrc.update_calc c b := by
  unfold OneWireCrc.update_table OneWireCrc.update_calc
  exact table_eq_calcRounds _ (xor_lt_256 c hc b hb)

/-- Witness for C10 at a concrete accumulator and byte. -/
theorem crc_update_table_eq_update_calc_witness :
    OneWireCrc.update_table 0xA7 0x39 = OneWireCrc.update_calc 0xA7 0x39 :=
  crc_update_table_eq_update_calc 0xA7 0x39 (by decide) (by decide)

/-- Claim C4: appending the CRC-8 accumulator value to any 7-byte prefix
yields a sequence accepted by validate, and flipping any single bit of
any of the 8 bytes makes validate reject it. -/
theorem crc_roundtrip_and_single_bit_flip (p : List Nat) (h7 : p.length = 7)
    (hb : ∀ b ∈ p, b < 256) :
    OneWireCrc.validate (p ++ [p.foldl OneWireCrc.update 0]) = true ∧
    ∀ i < 8, ∀ j < 8,
      OneWireCrc.validate (flipBit (p ++ [p.foldl OneWireCrc.update 0]) i j) = false := by
  set c := p.foldl OneWireCrc.update 0 with hcdef
  have hclt : c < 256 := foldl_update_lt_256 p hb 0 (by decide)
  have hacc : (p ++ [c]).foldl OneWireCrc.update 0 = 0 := by
    rw [List.foldl_append]
    show OneWireCrc.update c c = 0
    unfold OneWireCrc.update OneWireCrc.update_calc
    rw [Nat.xor_self]
    decide
  constructor
  · unfold OneWireCrc.validate
    rw [hacc]
    rfl
  · intro i hi j hj
    have hlen : (p ++ [c]).length = 8 := by simp [h7]
    have hbs : ∀ b ∈ p ++ [c], b < 256 := by
      intro b hbm
      rcases List.mem_append.mp hbm with h | h
      · exact hb b h
      · rcases List.mem_singleton.mp h with rfl; exact hclt
    have hne := foldl_update_flip (p ++ [c]) i hbs 0 (by decide)
      (by rw [hlen]; exact hi) j hj
    rw [hacc] at hne
    unfold OneWireCrc.validate
    exact beq_eq_false_iff_ne.mpr hne

/-- Witness for C4 at a concrete 7-byte prefix. -/
theorem crc_roundtrip_and_single_bit_flip_witness :
    OneWireCrc.validate ([1, 2, 3, 4, 5, 6, 7] ++
      [[1, 2, 3, 4, 5, 6, 7].foldl OneWireCrc.update 0]) = true ∧
    ∀ i < 8, ∀ j < 8,
      OneWireCrc.validate (flipBit ([1, 2, 3, 4, 5, 6, 7] ++
        [[1, 2, 3, 4, 5, 6, 7].foldl OneWireCrc.update 0]) i j) = false :=
  crc_roundtrip_and_single_bit_flip [1, 2, 3, 4, 5, 6, 7] (by decide) (by decide)

/-- Claim C1 (divergence at the failing input): on a bus whose triplet
always reads id bit 1 and complement 0 — so no position ever reads both
bits 0 — the blocking search engine still records a zero branch at every
position where the navigation direction is 0, because search.rs records
last_zero from the direction alone, before the bus bits are read: the
pass ends with last_discrepancy 64 and last_device false. The suspending
engine, which records the zero branch only when both bits read 0 as the
claim states, ends the same pass with last_discrepancy 0 and last_device
true. Both passes accumulate the all-ones ROM and fail CRC validation. -/
theorem sync_search_records_zero_branch_without_zero_bits :
    (OneWireSearch.next busOnes (OneWireSearch.new 0xf0) 0).1.last_discrepancy = 64
    ∧ (OneWireSearch.next busOnes (OneWireSearch.new 0xf0) 0).1.last_device = false
    ∧ (OneWireSearch.next busOnes (OneWireSearch.new 0xf0) 0).2.2
        = Except.error OwError.invalidCrc
    ∧ (asyncNext busOnesAsync (OneWireSearch.new 0xf0) 0).1.last_discrepancy = 0
    ∧ (asyncNext busOnesAsync (OneWireSearch.new 0xf0) 0).1.last_device = true
    ∧ (asyncNext busOnesAsync (OneWireSearch.new 0xf0) 0).2.2
        = Except.error OwError.invalidCrc :=
  ⟨rfl, rfl, rfl, rfl, rfl, rfl⟩

/-- Claim C6 counterexample: when the single next run by verify fails
(here: the bus reset reports no presence pulse), the error propagates
before the final reset, so verify leaves the search state seeded with
the given ROM and last_discrepancy 64 — not reset. -/
theorem verify_error_leaves_state_seeded :
    (OneWireSearch.verify busNoPresence (OneWireSearch.new 0xf0) 0 romA).2.2
        = Except.error OwError.noDevicePresent
    ∧ (OneWireSearch.verify busNoPresence (OneWireSearch.new 0xf0) 0 romA).1.last_discrepancy
        = 64
    ∧ (OneWireSearch.verify busNoPresence (OneWireSearch.new 0xf0) 0 romA).1
        ≠ (OneWireSearch.new 0xf0).reset :=
  ⟨rfl, rfl, by decide⟩

/-- Claim C6 amended: verify seeds the state with the ROM bytes and
last_discrepancy 64 and runs one next; when that next returns Ok it
reports whether the same code was reproduced and leaves the state reset;
when next returns an error, verify propagates it and the state stays as
next left it. -/
theorem verify_one_next_resets_on_ok {σ : Type} (bus : OneWireBus σ)
    (st : OneWireSearch) (ow : σ) (rom : Nat) {st' : OneWireSearch} {ow' : σ}
    {r : Option Nat}
    (h : OneWireSearch.next bus (st.verifySeed rom) ow = (st', ow', Except.ok r)) :
    OneWireSearch.verify bus st ow rom = (st'.reset, ow', Except.ok (r == some rom))
    ∧ (st'.reset).last_device = false
    ∧ (st'.reset).last_discrepancy = 0
    ∧ (st'.reset).last_family_discrepancy = 0
    ∧ (st'.reset).rom = [st'.family, 0, 0, 0, 0, 0, 0, 0]
    ∧ (st.verifySeed rom).rom = toLeBytes rom
    ∧ (st.verifySeed rom).last_discrepancy = 64 := by
  unfold OneWireSearch.verify
  rw [h]
  exact ⟨rfl, rfl, rfl, rfl, rfl, rfl, rfl⟩

/-- Witness for the amended C6 at a concrete bus presenting the device
with ROM code romA: verify reports true and resets the state. -/
theorem verify_one_next_resets_on_ok_witness :
    (OneWireSearch.verify (busOfRom romA) (OneWireSearch.new 0xf0) 0 romA).2.2
      = Except.ok true
    ∧ (OneWireSearch.verify (busOfRom romA) (OneWireSearch.new 0xf0) 0 romA).1.last_discrepancy
      = 0 := by
  obtain ⟨h1, -, h3, -⟩ := verify_one_next_resets_on_ok (busOfRom romA)
    (OneWireSearch.new 0xf0) 0 romA rfl
  refine ⟨?_, ?_⟩
  · rw [h1]
    rfl
  · rw [h1]
    exact h3

/-- Claim C9 amended, first part: with a nonzero family filter, next
never reports a ROM code whose family byte differs from the filter. -/
theorem search_family_filter_only_matching {σ : Type} (bus : OneWireBus σ)
    (st : OneWireSearch) (ow : σ) (hfam : st.family ≠ 0)
    (hb : ∀ b ∈ st.rom, b < 256) (r : Nat)
    (h : (OneWireSearch.next bus st ow).2.2 = Except.ok (some r)) :
    r % 256 = st.family := by
  unfold OneWireSearch.next at h
  split at h
  · simp at h
  · split at h
    · simp at h
    · split at h
      · simp at h
      · split at h
        · simp at h
        · split at h
          · simp at h
          · split at h
            · simp at h
            · split at h
              · simp at h
              next a ow2 heqw =>
                split at h
                · simp at h
                next st' ow' res heq =>
                  have hinv := searchLoop_inv bus 64 st ow2 1 0 0 1 (by omega)
                  rw [heq] at hinv
                  simp only at hinv
                  obtain ⟨hfam', hlen', hbytes'⟩ := hinv
                  have hb' : ∀ b ∈ st'.rom, b < 256 := hbytes' hb
                  split at h
                  · simp at h
                  next hnone =>
                    split at h
                    · simp at h
                    · split at h
                      · simp at h
                      next hguard =>
                        simp only at h
                        have hr : fromLeBytes st'.rom = r := by
                          simpa using h
                        have hget : st'.rom.getD 0 0 ≠ 0 := by
                          simp only [Bool.or_eq_true, not_or, beq_iff_eq] at hnone
                          exact hnone.2
                        have hne : st'.rom ≠ [] := by
                          intro hcontra
                          rw [hcontra] at hget
                          exact hget rfl
                        have hfz : st'.family ≠ 0 := by
                          rw [hfam']
                          exact hfam
                        have hfa : st'.rom.getD 0 0 = st'.family := by
                          simp only [Bool.and_eq_true, bne_iff_ne, ne_eq,
                            not_and, not_not] at hguard
                          exact hguard hfz
                        rw [← hr, fromLeBytes_head_mod _ hne (byte_getD_lt _ hb'),
                          hfa, hfam']

/-- Witness for the amended C9 at a concrete bus: the search constructed
with family filter 0x28 reports romA, whose family byte is 0x28. -/
theorem search_family_filter_only_matching_witness :
    (OneWireSearch.with_family 0xf0 0x28).family ≠ 0
    ∧ romA % 256 = (OneWireSearch.with_family 0xf0 0x28).family :=
  ⟨by decide, search_family_filter_only_matching (busOfRom romA)
    (OneWireSearch.with_family 0xf0 0x28) 0 (by decide) (by decide) romA rfl⟩

/-- Claim C9 counterexample: a CRC-valid discovery whose family byte
mismatches the filter yields Ok None, but last_device is still set by
the loop bookkeeping (the pass recorded no zero branch), so the scan is
ended: the following call returns Ok None immediately. This contradicts
the claim that such a round leaves the overall scan unended. -/
theorem family_mismatch_can_set_last_device :
    mixPass2.2.2 = Except.ok none
    ∧ mixPass2.1.last_device = true
    ∧ (OneWireSearch.next busMix mixPass2.1 mixPass2.2.1).2.2 = Except.ok none
    ∧ OneWireCrc.validate (toLeBytes romMismatch) = true
    ∧ romMismatch % 256 ≠ 0x28
    ∧ mixPass1.2.2 = Except.error OwError.invalidCrc :=
  ⟨rfl, rfl, rfl, by decide, by decide, rfl⟩

/-- Claim C2 (divergence at the failing input): with retry budget 3 and
a transport that reports busy (0x01) on every status read, the blocking
onewire_wait returns Ok after a single read — it can never return
RetriesExceeded, because the status byte is read into a temporary and
discarded, so the stale default status never looks busy. Dually, the
blocking bus_reset returns RetriesExceeded after 5 = 3 + 2 reads even
when the transport reports the device-reset flag (0x10) on every read.
The suspending revision, which does observe the bus, fails an
indefinitely busy wait with RetriesExceeded after 5 = 3 + 2 reads with
4 fixed delays between them (not after exactly 3 reads), and its
bus_reset succeeds on the first read reporting the flag. -/
theorem sync_busy_polling_discards_status :
    (dsOnewireWait (dsWith 3 false false (fun _ => 0x01))).1 = Except.ok 0
    ∧ (dsOnewireWait (dsWith 3 false false (fun _ => 0x01))).2.i2c.reads = 1
    ∧ (dsBusReset (dsWith 3 false false (fun _ => 0x10))).1
        = Except.error Ds2484Error.retriesExceeded
    ∧ (dsBusReset (dsWith 3 false false (fun _ => 0x10))).2.i2c.reads = 5
    ∧ (asyncOnewireWait (dsWith 3 false false (fun _ => 0x01))).1
        = Except.error Ds2484Error.retriesExceeded
    ∧ (asyncOnewireWait (dsWith 3 false false (fun _ => 0x01))).2.i2c.reads = 5
    ∧ (asyncOnewireWait (dsWith 3 false false (fun _ => 0x01))).2.i2c.delays = 4
    ∧ (asyncBusReset (dsWith 3 false false (fun _ => 0x10))).1 = Except.ok 0x10
    ∧ (asyncBusReset (dsWith 3 false false (fun _ => 0x10))).2.i2c.reads = 1 :=
  ⟨rfl, rfl, rfl, rfl, rfl, rfl, rfl, rfl, rfl⟩

/-- Claim C3 (divergence at the failing input): the all-false
configuration encodes to 0xF0 under cfg_to_u8, and encode followed by
the raw decode is the identity on all 16 low-nibble values; but the
blocking configuration write transmits the raw storage byte 0x00 — not
the encoded 0xF0 — after the register-select byte 0xD2, while the
suspending revision (and the crate's own test, which expects the
transaction 0xD2 0xF0) transmits the encoded byte. -/
theorem sync_config_write_transmits_raw_byte :
    cfg_to_u8 0 = 0xF0
    ∧ ((List.range 16).all fun x => (cfg_to_u8 x) &&& 0x0f == x) = true
    ∧ (cfgWrite 0 (dsWith 0 false false (fun _ => 0x00))).2.i2c.writes
        = [[0xe1, 0xf0], [0xd2, 0x00]]
    ∧ (asyncCfgWrite 0 (dsWith 0 false false (fun _ => 0x00))).2.i2c.writes
        = [[0xe1, 0xf0], [0xd2, 0xf0]]
    ∧ (0x00 : Nat) ≠ 0xf0 :=
  ⟨rfl, by decide, rfl, rfl, by decide⟩

/-- Claim C5 counterexample: a blocking bridge that is in overdrive
mode (its overdrive flag is set and its configuration register reads
0x08, speed bit set) is asked to disable overdrive. The claim requires
the full sequence reset, speed-change ROM command, configuration write,
mark, reset; the code performs only the configuration-register read
(transaction 0xE1 0xC3), whose result it discards, and returns Ok —
no bus reset, no ROM command, no configuration write, and the bridge
still marked as overdrive. -/
theorem sync_set_overdrive_disable_does_nothing :
    (dsSetOverdriveMode false (dsWith 0 false true (fun _ => 0x08))).1 = Except.ok ()
    ∧ (dsSetOverdriveMode false (dsWith 0 false true (fun _ => 0x08))).2.i2c.writes
        = [[0xe1, 0xc3]]
    ∧ (dsSetOverdriveMode false (dsWith 0 false true (fun _ => 0x08))).2.dev.overdrive
        = true :=
  ⟨rfl, rfl, rfl⟩

/-- Claim C5 amended, on the suspending revision whose register reads
are observed: set_overdrive_mode is a no-op beyond one configuration
read when the register speed bit already equals the request; enabling
from standard speed performs, in order, the configuration read, a bus
reset (wait 0xE1 0xF0, reset 0xB4, wait), the overdrive skip-ROM
command 0x3C, the configuration write 0xD2 0x78 with the speed bit set,
marks overdrive active, and a second bus reset; disabling performs only
the configuration write 0xD2 0xF0 with the speed bit cleared, marks
standard speed, and a single bus reset — with no initial reset and no
ROM command. The transport reports status 0x02 (presence, not busy). -/
theorem async_set_overdrive_sequences :
    (asyncSetOverdriveMode true
        (dsWith 0 false true (fun k => if k == 0 then 0x08 else 0x02))).1 = Except.ok ()
    ∧ (asyncSetOverdriveMode true
        (dsWith 0 false true (fun k => if k == 0 then 0x08 else 0x02))).2.i2c.writes
        = [[0xe1, 0xc3]]
    ∧ (asyncSetOverdriveMode true
        (dsWith 0 false false (fun k => if k == 0 then 0x00 else 0x02))).1 = Except.ok ()
    ∧ (asyncSetOverdriveMode true
        (dsWith 0 false false (fun k => if k == 0 then 0x00 else 0x02))).2.i2c.writes
        = [[0xe1, 0xc3], [0xe1, 0xf0], [0xb4], [0xe1, 0xf0], [0xe1, 0xf0],
           [0xa5, 0x3c], [0xe1, 0xf0], [0xd2, 0x78], [0xe1, 0xf0], [0xb4], [0xe1, 0xf0]]
    ∧ (asyncSetOverdriveMode true
        (dsWith 0 false false (fun k => if k == 0 then 0x00 else 0x02))).2.dev.overdrive
        = true
    ∧ (asyncSetOverdriveMode false
        (dsWith 0 false true (fun k => if k == 0 then 0x08 else 0x02))).1 = Except.ok ()
    ∧ (asyncSetOverdriveMode false
        (dsWith 0 false true (fun k => if k == 0 then 0x08 else 0x02))).2.i2c.writes
        = [[0xe1, 0xc3], [0xe1, 0xf0], [0xd2, 0xf0], [0xe1, 0xf0], [0xb4], [0xe1, 0xf0]]
    ∧ (asyncSetOverdriveMode false
        (dsWith 0 false true (fun k => if k == 0 then 0x08 else 0x02))).2.dev.overdrive
        = false :=
  ⟨rfl, rfl, rfl, rfl, rfl, rfl, rfl, rfl⟩

/-- Claim C7: while the device-reset flag is set, every 1-Wire
primitive of the blocking bridge returns BusUninitialized with the
state — in particular the transport transaction log — completely
unchanged; and a configuration-register write always leaves the flag
cleared. -/
theorem bridge_rejects_before_configuration (s : DsState)
    (h : s.dev.reset = true) (byte : Nat) (bit : Bool) :
    dsReset s = (Except.error OwError.busUninitialized, s)
    ∧ dsWriteByte byte s = (Except.error OwError.busUninitialized, s)
    ∧ dsReadByte s = (Except.error OwError.busUninitialized, s)
    ∧ dsWriteBit bit s = (Except.error OwError.busUninitialized, s)
    ∧ dsReadBit s = (Except.error OwError.busUninitialized, s)
    ∧ dsReadTriplet s = (Except.error OwError.busUninitialized, s)
    ∧ ∀ cfg, ((cfgWrite cfg s).2).dev.reset = false := by
  refine ⟨?_, ?_, ?_, ?_, ?_, ?_, ?_⟩
  · unfold dsReset
    rw [if_pos h]
  · unfold dsWriteByte
    rw [if_pos h]
  · unfold dsReadByte
    rw [if_pos h]
  · unfold dsWriteBit
    rw [if_pos h]
  · unfold dsReadBit
    rw [if_pos h]
  · unfold dsReadTriplet
    rw [if_pos h]
  · intro cfg
    unfold cfgWrite
    rw [dsOnewireWait_eq]

/-- Witness for C7 at a concrete freshly-reset bridge state. -/
theorem bridge_rejects_before_configuration_witness :
    dsReset (dsWith 2 true false (fun _ => 0x02))
      = (Except.error OwError.busUninitialized, dsWith 2 true false (fun _ => 0x02))
    ∧ ((cfgWrite 0 (dsWith 2 true false (fun _ => 0x02))).2).dev.reset = false :=
  ⟨(bridge_rejects_before_configuration (dsWith 2 true false (fun _ => 0x02))
      rfl 0 false).1,
   (bridge_rejects_before_configuration (dsWith 2 true false (fun _ => 0x02))
      rfl 0 false).2.2.2.2.2.2 0⟩

/-- Claim C8 amended: each of the table-driven timing setters stores,
in the low nibble of its parameter byte, the first (hence smallest)
table index whose tabulated value is at least the requested value, and
index 0 when every entry is below the request. The resistor setter does
not follow this policy (see the counterexample). -/
theorem builder_setters_choose_first_adequate_index
    (c : OneWirePortConfiguration) (n o m mo w wo v : Nat)
    (h1 : c.t_rstl < 256) (h2 : c.t_rstl_od < 256)
    (h3 : c.t_msp < 256) (h4 : c.t_msp_od < 256)
    (h5 : c.t_w0l < 256) (h6 : c.t_w0l_od < 256)
    (h7 : c.t_rec0 < 256) :
    chosenSpec TRSTL_NORMAL n ((c.reset_pulse n o).t_rstl &&& 0x0f)
    ∧ chosenSpec TRSTL_OVERDRIVE o ((c.reset_pulse n o).t_rstl_od &&& 0x0f)
    ∧ chosenSpec TMSP_NORMAL m ((c.presence_detect_time m mo).t_msp &&& 0x0f)
    ∧ chosenSpec TMSP_OVERDRIVE mo ((c.presence_detect_time m mo).t_msp_od &&& 0x0f)
    ∧ chosenSpec TW0L_NORMAL w ((c.write_zero_low_time w wo).t_w0l &&& 0x0f)
    ∧ chosenSpec TW0L_OVERDRIVE wo ((c.write_zero_low_time w wo).t_w0l_od &&& 0x0f)
    ∧ chosenSpec TREC0_VALUES v ((c.write_zero_recovery_time v).t_rec0 &&& 0x0f) := by
  have e1 : (c.reset_pulse n o).t_rstl &&& 0x0f = selectIdx TRSTL_NORMAL n :=
    nibble_or_eq _ h1 _ (selectIdx_lt16 _ _ (by decide))
  have e2 : (c.reset_pulse n o).t_rstl_od &&& 0x0f = selectIdx TRSTL_OVERDRIVE o :=
    nibble_or_eq _ h2 _ (selectIdx_lt16 _ _ (by decide))
  have e3 : (c.presence_detect_time m mo).t_msp &&& 0x0f = selectIdx TMSP_NORMAL m :=
    nibble_or_eq _ h3 _ (selectIdx_lt16 _ _ (by decide))
  have e4 : (c.presence_detect_time m mo).t_msp_od &&& 0x0f
      = selectIdx TMSP_OVERDRIVE mo :=
    nibble_or_eq _ h4 _ (selectIdx_lt16 _ _ (by decide))
  have e5 : (c.write_zero_low_time w wo).t_w0l &&& 0x0f = selectIdx TW0L_NORMAL w :=
    nibble_or_eq _ h5 _ (selectIdx_lt16 _ _ (by decide))
  have e6 : (c.write_zero_low_time w wo).t_w0l_od &&& 0x0f
      = selectIdx TW0L_OVERDRIVE wo :=
    nibble_or_eq _ h6 _ (selectIdx_lt16 _ _ (by decide))
  have e7 : (c.write_zero_recovery_time v).t_rec0 &&& 0x0f
      = selectIdx TREC0_VALUES v :=
    nibble_or_eq _ h7 _ (selectIdx_lt16 _ _ (by decide))
  rw [e1, e2, e3, e4, e5, e6, e7]
  exact ⟨selectIdx_chosen _ _, selectIdx_chosen _ _, selectIdx_chosen _ _,
    selectIdx_chosen _ _, selectIdx_chosen _ _, selectIdx_chosen _ _,
    selectIdx_chosen _ _⟩

/-- Witness for the amended C8 at the default configuration and sample
requested values, including one (800000 ns) above the table maximum. -/
theorem builder_setters_choose_first_adequate_index_witness :
    chosenSpec TRSTL_NORMAL 500000 ((portDefault.reset_pulse 500000 50000).t_rstl &&& 0x0f)
    ∧ chosenSpec TRSTL_OVERDRIVE 50000
        ((portDefault.reset_pulse 500000 50000).t_rstl_od &&& 0x0f)
    ∧ chosenSpec TRSTL_NORMAL 800000
        ((portDefault.reset_pulse 800000 50000).t_rstl &&& 0x0f)
    ∧ (portDefault.reset_pulse 800000 50000).t_rstl &&& 0x0f = 0 :=
  ⟨(builder_setters_choose_first_adequate_index portDefault 500000 50000 0 0 0 0 0
      (by decide) (by decide) (by decide) (by decide) (by decide) (by decide)
      (by decide)).1,
   (builder_setters_choose_first_adequate_index portDefault 500000 50000 0 0 0 0 0
      (by decide) (by decide) (by decide) (by decide) (by decide) (by decide)
      (by decide)).2.1,
   (builder_setters_choose_first_adequate_index portDefault 800000 50000 0 0 0 0 0
      (by decide) (by decide) (by decide) (by decide) (by decide) (by decide)
      (by decide)).1,
   by decide⟩

/-- Claim C8 counterexample: the resistor setter does not store the
smallest adequate index. Starting from a configuration whose R_WPU
nibble is 0 (tabulated value 500 Ohm), requesting 1000 Ohm leaves the
nibble unchanged at 0, whose tabulated value 500 is below the request —
although nibble 6 tabulates exactly 1000 Ohm. -/
theorem weak_pullup_setter_ignores_selection_policy :
    (({ portDefault with r_wpu := 0x80 } :
        OneWirePortConfiguration).weak_pullup_resistor 1000).r_wpu = 0x80
    ∧ weak_pullup_resistor_ohms
        (({ portDefault with r_wpu := 0x80 } :
          OneWirePortConfiguration).weak_pullup_resistor 1000) = 500
    ∧ (500 : Nat) < 1000
    ∧ weak_pullup_resistor_ohms { portDefault with r_wpu := 0x86 } = 1000 := by
  refine ⟨by decide, by decide, by decide, by decide⟩
